import Mathlib

/-!
Shallow embedding of the asynchronous multi-provider transcription job
orchestrator (NestJS service).  The data model and the job-store operations
are translated from `job-manager.service.ts` (JobManagerService), the
orchestration paths from `transcription.service.ts` (TranscriptionService),
and the Deepgram adapter's catch branch from `deepgram.service.ts`
(DeepgramService.transcribeFile).

Dates are modelled as natural-number timestamps (milliseconds); every
operation that calls `new Date()` in the source takes the current time as an
explicit argument.  The job map is an association list mirroring the JS
`Map` (insertion order preserved, `set` replaces the value of an existing
key in place).
-/

namespace Notica

/-- JobStatus enum from job-manager.service.ts. -/
inductive JobStatus where
  | pending
  | processing
  | completed
  | failed
deriving DecidableEq, Repr

/-- Per-provider status inside a comparison job: the TS literal union
type of ProviderResult.status ('pending' | 'processing' | 'completed' |
'failed'). -/
inductive PRStatus where
  | pending
  | processing
  | completed
  | failed
deriving DecidableEq, Repr

/-- Providers known to the system, the TS union 'aws' | 'deepgram'. -/
inductive Provider where
  | aws
  | deepgram
deriving DecidableEq, Repr

/-- Normalized adapter payload: the object shape both adapters
(aws-transcribe.service.ts / deepgram.service.ts) return from
transcribeFile.  The job store treats it as opaque (TS type any); these
fields are the ones both adapters populate. -/
structure AdapterResponse where
  providerName : String
  /-- Adapter-level status string, 'COMPLETED' or 'FAILED'. -/
  rstatus : String
  transcript : Option String := none
  errorMsg : Option String := none
  duration : String := ""
deriving DecidableEq, Repr

/-- ProviderResult interface from job-manager.service.ts. -/
structure ProviderResult where
  status : PRStatus
  result : Option AdapterResponse := none
  error : Option String := none
  startedAt : Option Nat := none
  completedAt : Option Nat := none
deriving DecidableEq, Repr

/-- The providerResults object of a comparison job:
{ aws?: ProviderResult; deepgram?: ProviderResult }. -/
structure ProviderResults where
  aws : Option ProviderResult := none
  deepgram : Option ProviderResult := none
deriving DecidableEq, Repr

/-- TranscriptionJob interface from job-manager.service.ts. -/
structure TranscriptionJob where
  id : String
  status : JobStatus
  fileName : String
  filePath : String
  languageCode : String
  provider : Option Provider := none
  deepgramModel : Option String := none
  result : Option AdapterResponse := none
  error : Option String := none
  providerResults : Option ProviderResults := none
  createdAt : Nat
  completedAt : Option Nat := none
deriving DecidableEq, Repr

/-- The in-memory job table (private jobs: Map of string to
TranscriptionJob), as an association list in insertion order. -/
abbrev Store := List (String × TranscriptionJob)

/-- Map.get: first entry whose key equals the id. -/
def getJob : Store → String → Option TranscriptionJob
  | [], _ => none
  | (k, j) :: rest, jobId => if k == jobId then some j else getJob rest jobId

/-- Map.set: replace the value of an existing key in place, otherwise
append a fresh entry. -/
def setJob : Store → String → TranscriptionJob → Store
  | [], jobId, j => [(jobId, j)]
  | (k, j0) :: rest, jobId, j =>
      if k == jobId then (k, j) :: rest else (k, j0) :: setJob rest jobId j

/-- JobManagerService.createJob: insert a fresh Pending single-provider
job.  randomUUID() is modelled by taking the fresh id as an argument. -/
def createJob (s : Store) (jobId fileName filePath languageCode : String)
    (provider : Option Provider) (deepgramModel : Option String)
    (now : Nat) : Store :=
  setJob s jobId
    { id := jobId
      status := .pending
      fileName := fileName
      filePath := filePath
      languageCode := languageCode
      provider := provider
      deepgramModel := deepgramModel
      createdAt := now }

/-- JobManagerService.createComparisonJob: insert a fresh Pending job with
both providers pre-seeded as pending ProviderResults. -/
def createComparisonJob (s : Store) (jobId fileName filePath languageCode : String)
    (deepgramModel : Option String) (now : Nat) : Store :=
  setJob s jobId
    { id := jobId
      status := .pending
      fileName := fileName
      filePath := filePath
      languageCode := languageCode
      deepgramModel := deepgramModel
      providerResults := some { aws := some { status := .pending }
                                deepgram := some { status := .pending } }
      createdAt := now }

/-- JobManagerService.updateJobStatus: set the status if the job exists,
otherwise do nothing. -/
def updateJobStatus (s : Store) (jobId : String) (status : JobStatus) : Store :=
  match getJob s jobId with
  | some job => setJob s jobId { job with status := status }
  | none => s

/-- Field selection providerResults[provider]. -/
def ProviderResults.get (pr : ProviderResults) : Provider → Option ProviderResult
  | .aws => pr.aws
  | .deepgram => pr.deepgram

/-- Assignment providerResults[provider] = r. -/
def ProviderResults.put (pr : ProviderResults) : Provider → ProviderResult → ProviderResults
  | .aws, r => { pr with aws := some r }
  | .deepgram, r => { pr with deepgram := some r }

/-- Test awsStatus === 'completed' || awsStatus === 'failed' on an optional
ProviderResult (the ?. chain yields undefined when the entry is absent,
which compares unequal to both literals). -/
def prTerminal : Option ProviderResult → Bool
  | some r => r.status == .completed || r.status == .failed
  | none => false

/-- JobManagerService.areAllProvidersCompleted, job-level body: false when
providerResults is absent, else both entries must be completed or failed. -/
def areAllProvidersCompletedJob (job : TranscriptionJob) : Bool :=
  match job.providerResults with
  | none => false
  | some pr => prTerminal pr.aws && prTerminal pr.deepgram

/-- JobManagerService.areAllProvidersCompleted: fetch the job by id and
check both provider statuses; false when the job is missing. -/
def areAllProvidersCompleted (s : Store) (jobId : String) : Bool :=
  match getJob s jobId with
  | none => false
  | some job => areAllProvidersCompletedJob job

/-- JobManagerService.updateProviderResult: overwrite the provider's entry
with a completed ProviderResult carrying the payload, then re-derive the
job-level status.  In the source the job object is mutated in place, so
areAllProvidersCompleted (which re-reads the map) already sees the new
provider entry; this is modelled by writing the mutated job back before the
check. -/
def updateProviderResult (s : Store) (jobId : String) (provider : Provider)
    (result : AdapterResponse) (now : Nat) : Store :=
  match getJob s jobId with
  | none => s
  | some job =>
    match job.providerResults with
    | none => s
    | some pr =>
      let pr1 := pr.put provider
        { status := .completed, result := some result, completedAt := some now }
      let job1 := { job with providerResults := some pr1 }
      let s1 := setJob s jobId job1
      let allCompleted := areAllProvidersCompleted s1 jobId
      let job2 :=
        if allCompleted then
          { job1 with status := .completed, completedAt := some now }
        else if job1.status == .pending then
          { job1 with status := .processing }
        else job1
      setJob s1 jobId job2

/-- JobManagerService.failProviderResult: overwrite the provider's entry
with a failed ProviderResult carrying the error, then re-derive the
job-level status (Completed if at least one provider entry is completed,
Failed if all failed, once every provider entry is terminal). -/
def failProviderResult (s : Store) (jobId : String) (provider : Provider)
    (error : String) (now : Nat) : Store :=
  match getJob s jobId with
  | none => s
  | some job =>
    match job.providerResults with
    | none => s
    | some pr =>
      let pr1 := pr.put provider
        { status := .failed, error := some error, completedAt := some now }
      let job1 := { job with providerResults := some pr1 }
      let s1 := setJob s jobId job1
      let allDone := areAllProvidersCompleted s1 jobId
      let job2 :=
        if allDone then
          let hasSuccess :=
            (pr1.aws.map (·.status) == some .completed) ||
            (pr1.deepgram.map (·.status) == some .completed)
          { job1 with status := if hasSuccess then .completed else .failed
                      completedAt := some now }
        else if job1.status == .pending then
          { job1 with status := .processing }
        else job1
      setJob s1 jobId job2

/-- JobManagerService.completeJob: terminal success write for the
single-provider path. -/
def completeJob (s : Store) (jobId : String) (result : AdapterResponse)
    (now : Nat) : Store :=
  match getJob s jobId with
  | some job =>
      setJob s jobId
        { job with status := .completed, result := some result, completedAt := some now }
  | none => s

/-- JobManagerService.failJob: terminal failure write for the
single-provider path. -/
def failJob (s : Store) (jobId : String) (error : String) (now : Nat) : Store :=
  match getJob s jobId with
  | some job =>
      setJob s jobId
        { job with status := .failed, error := some error, completedAt := some now }
  | none => s

/-- Eviction condition of JobManagerService.cleanupOldJobs: completedAt is
set, is strictly older than one hour before now, and the status is
Completed or Failed. -/
def shouldEvict (job : TranscriptionJob) (now : Nat) : Bool :=
  match job.completedAt with
  | some t =>
      decide (t < now - 60 * 60 * 1000) &&
      (job.status == .completed || job.status == .failed)
  | none => false

/-- JobManagerService.cleanupOldJobs: delete every entry meeting the
eviction condition, keep the rest untouched. -/
def cleanupOldJobs (s : Store) (now : Nat) : Store :=
  s.filter (fun kv => !shouldEvict kv.2 now)

/-!
Orchestration layer, from transcription.service.ts.  A provider task's
adapter call either returns a value (the normalized payload) or throws; the
orchestrator's try/catch around the call is what decides which store
operation runs.
-/

/-- Outcome of one awaited adapter call as seen by the orchestrator's
try/catch: a returned payload, or a thrown error (carrying error.message). -/
inductive Outcome where
  | ok (r : AdapterResponse)
  | thrown (message : String)
deriving DecidableEq, Repr

/-- Whether the adapter call returned (did not throw). -/
def Outcome.returned : Outcome → Bool
  | .ok _ => true
  | .thrown _ => false

/-- TranscriptionService.runProviderTranscription, after the adapter call
settled: on a returned payload call updateProviderResult, on a throw call
failProviderResult with error.message. -/
def runProviderTranscription (s : Store) (jobId : String) (provider : Provider)
    (outcome : Outcome) (now : Nat) : Store :=
  match outcome with
  | .ok r => updateProviderResult s jobId provider r now
  | .thrown m => failProviderResult s jobId provider m now

/-- TranscriptionService.runCompareTranscriptionsJob: bail out if the job
is missing, set the job Processing, then run both provider tasks.  The two
tasks race; awsFirst picks which one's store update lands first (the store
updates themselves are synchronous, hence atomic, in the source runtime).
tAws and tDg are the times at which each provider's update runs. -/
def runCompareTranscriptionsJob (s : Store) (jobId : String)
    (awsOutcome dgOutcome : Outcome) (awsFirst : Bool)
    (tAws tDg : Nat) : Store :=
  match getJob s jobId with
  | none => s
  | some _ =>
    let s1 := updateJobStatus s jobId .processing
    if awsFirst then
      runProviderTranscription
        (runProviderTranscription s1 jobId .aws awsOutcome tAws)
        jobId .deepgram dgOutcome tDg
    else
      runProviderTranscription
        (runProviderTranscription s1 jobId .deepgram dgOutcome tDg)
        jobId .aws awsOutcome tAws

/-- TranscriptionService.runTranscribeWithProviderJob: bail out if the job
or its provider field is missing, set Processing, await the one adapter
call, then completeJob on a returned payload or failJob with error.message
on a throw. -/
def runTranscribeWithProviderJob (s : Store) (jobId : String)
    (outcome : Outcome) (now : Nat) : Store :=
  match getJob s jobId with
  | none => s
  | some job =>
    match job.provider with
    | none => s
    | some _ =>
      let s1 := updateJobStatus s jobId .processing
      match outcome with
      | .ok r => completeJob s1 jobId r now
      | .thrown m => failJob s1 jobId m now

/-- Payload built by the catch branch of DeepgramService.transcribeFile:
the adapter never lets an exception escape, it returns this failure-shaped
object instead. -/
def deepgramCatchResult (message : String) (duration : String) : AdapterResponse :=
  { providerName := "Deepgram"
    rstatus := "FAILED"
    transcript := none
    errorMsg := some message
    duration := duration }

/-- Success payload of AwsTranscribeService.transcribeFile (status
'COMPLETED' with the fetched transcript). -/
def awsSuccessResult (transcript : String) (duration : String) : AdapterResponse :=
  { providerName := "AWS Transcribe"
    rstatus := "COMPLETED"
    transcript := some transcript
    errorMsg := none
    duration := duration }

/-- Whether a job-level status is terminal. -/
def JobStatus.terminal : JobStatus → Bool
  | .completed => true
  | .failed => true
  | _ => false

/-- Rank of a job-level status in the order Pending < Processing <
{Completed, Failed}. -/
def statusRank : JobStatus → Nat
  | .pending => 0
  | .processing => 1
  | .completed => 2
  | .failed => 2

/-- Status of the job with the given id, when present. -/
def jobStatusIn (s : Store) (jobId : String) : Option JobStatus :=
  (getJob s jobId).map (·.status)

/-- ProviderResult entry stored for one provider of one job, when present. -/
def prOf (s : Store) (jobId : String) (p : Provider) : Option ProviderResult :=
  match getJob s jobId with
  | none => none
  | some j =>
    match j.providerResults with
    | none => none
    | some pr => pr.get p

/-- Job-record invariant of the spec: completedAt is set exactly when the
job-level status is terminal. -/
def completedAtConsistent (j : TranscriptionJob) : Bool :=
  j.completedAt.isSome == j.status.terminal

/-!
Theorems.  Each claim of the specification is settled against the
embedding above.
-/

/-- C1: for every comparison job, the job-level status is terminal exactly
when both requested providers hold a terminal ProviderResult; the terminal
status is Completed iff at least one provider's ProviderResult is completed
and Failed iff both are failed, for either arrival order, and the final
job-level status does not depend on the order. -/
theorem C1_terminal_aggregation
    (jobId fn fp lc : String) (dm : Option String) (t0 tA tD : Nat)
    (oA oD : Outcome) (awsFirst : Bool) :
    let s0 := createComparisonJob [] jobId fn fp lc dm t0
    let s1 := updateJobStatus s0 jobId .processing
    let sA := runProviderTranscription s1 jobId .aws oA tA
    let sD := runProviderTranscription s1 jobId .deepgram oD tD
    let sF := runCompareTranscriptionsJob s0 jobId oA oD awsFirst tA tD
    (jobStatusIn s0 jobId = some .pending ∧ areAllProvidersCompleted s0 jobId = false) ∧
    (jobStatusIn s1 jobId = some .processing ∧ areAllProvidersCompleted s1 jobId = false) ∧
    ((jobStatusIn sA jobId).map JobStatus.terminal = some false ∧
      areAllProvidersCompleted sA jobId = false) ∧
    ((jobStatusIn sD jobId).map JobStatus.terminal = some false ∧
      areAllProvidersCompleted sD jobId = false) ∧
    ((jobStatusIn sF jobId).map JobStatus.terminal = some true ∧
      areAllProvidersCompleted sF jobId = true) ∧
    (jobStatusIn sF jobId = some .completed ↔
      ((prOf sF jobId .aws).map (·.status) = some .completed ∨
       (prOf sF jobId .deepgram).map (·.status) = some .completed)) ∧
    (jobStatusIn sF jobId = some .failed ↔
      ((prOf sF jobId .aws).map (·.status) = some .failed ∧
       (prOf sF jobId .deepgram).map (·.status) = some .failed)) ∧
    jobStatusIn (runCompareTranscriptionsJob s0 jobId oA oD true tA tD) jobId =
      jobStatusIn (runCompareTranscriptionsJob s0 jobId oA oD false tA tD) jobId := by
  cases oA <;> cases oD <;> cases awsFirst <;>
    simp [createComparisonJob, runCompareTranscriptionsJob, runProviderTranscription,
      updateProviderResult, failProviderResult, updateJobStatus,
      areAllProvidersCompleted, areAllProvidersCompletedJob, prTerminal,
      ProviderResults.put, ProviderResults.get, getJob, setJob,
      JobStatus.terminal, jobStatusIn, prOf]

/-- Final store of spec scenario 1: comparison job, AWS adapter returns a
success payload with transcript "hello", Deepgram's underlying call fails
with "quota exceeded" but the adapter catches and returns its failure-shaped
payload instead of throwing, so the orchestrator's try/catch sees a
returned value for both providers. -/
def scenario1Final : Store :=
  runCompareTranscriptionsJob
    (createComparisonJob [] "job1" "clip.mp3" "/tmp/clip.mp3" "en-US" (some "nova-3") 0)
    "job1"
    (.ok (awsSuccessResult "hello" "1.00s"))
    (.ok (deepgramCatchResult "quota exceeded" "2.00s"))
    true 1000 2000

/-- C2: evaluation of the code at the claim's input.  The job does end
Completed with the AWS transcript stored, but because the Deepgram adapter
returns its failure as a payload rather than throwing, the orchestrator
records it via updateProviderResult: providerResults.deepgram has status
completed (not failed), its error field is unset, and the failure-shaped
payload sits in its result field. -/
theorem C2_deepgram_failure_recorded_completed :
    jobStatusIn scenario1Final "job1" = some .completed ∧
    (prOf scenario1Final "job1" .aws).map (·.status) = some .completed ∧
    (prOf scenario1Final "job1" .aws).bind (·.result) =
      some (awsSuccessResult "hello" "1.00s") ∧
    (prOf scenario1Final "job1" .deepgram).map (·.status) = some .completed ∧
    (prOf scenario1Final "job1" .deepgram).bind (·.error) = none ∧
    (prOf scenario1Final "job1" .deepgram).bind (·.result) =
      some (deepgramCatchResult "quota exceeded" "2.00s") := by
  decide

/-- Final store of spec scenario 3 varied to the Deepgram failure shape: a
single-provider Deepgram job whose adapter call fails with "quota exceeded";
the adapter catches and returns the failure-shaped payload, so the
orchestrator's try/catch sees a returned value. -/
def scenario3Final : Store :=
  runTranscribeWithProviderJob
    (createJob [] "job1" "clip.mp3" "/tmp/clip.mp3" "en-US" (some .deepgram)
      (some "nova-3") 0)
    "job1"
    (.ok (deepgramCatchResult "quota exceeded" "2.00s"))
    5000

/-- C3: evaluation of the code at the failing input.  A single-provider job
whose adapter call yields a failure outcome without throwing is routed to
completeJob: the job ends Completed with the failure-shaped payload stored
as its result and no error message, where the claim requires Failed with
the error populated and no result stored. -/
theorem C3_nonthrown_failure_completes_job :
    jobStatusIn scenario3Final "job1" = some .completed ∧
    (getJob scenario3Final "job1").bind (·.result) =
      some (deepgramCatchResult "quota exceeded" "2.00s") ∧
    (getJob scenario3Final "job1").bind (·.error) = none ∧
    (getJob scenario3Final "job1").bind (·.completedAt) = some 5000 := by
  decide

/-- State of a comparison job right after the orchestrator's opening
updateJobStatus(Processing) call in runCompareTranscriptionsJob, before
either provider task has recorded an outcome. -/
def preOutcomeState : Store :=
  updateJobStatus
    (createComparisonJob [] "job1" "clip.mp3" "/tmp/clip.mp3" "en-US" (some "nova-3") 0)
    "job1" .processing

/-- C4 counterexample: immediately after the orchestrator's opening store
call — with both ProviderResults still pending, so before the first
provider outcome is recorded — the job's status is already Processing, not
Pending as the claim requires. -/
theorem C4_counterexample_processing_before_first_outcome :
    jobStatusIn preOutcomeState "job1" = some .processing ∧
    (prOf preOutcomeState "job1" .aws).map (·.status) = some .pending ∧
    (prOf preOutcomeState "job1" .deepgram).map (·.status) = some .pending := by
  decide

/-- C4 amended: the Pending→Processing transition of a comparison job
happens when the orchestrator begins executing the job — its opening
updateJobStatus(Processing) call, issued before any provider outcome is
recorded — and the outcome-recording operations promote the job to
Processing only as a fallback when an outcome lands while the job is still
Pending and its sibling is not yet terminal. -/
theorem C4_amended_processing_at_job_start
    (jobId fn fp lc : String) (dm : Option String) (t0 t1 : Nat)
    (o : Outcome) (p : Provider) :
    let s0 := createComparisonJob [] jobId fn fp lc dm t0
    let s1 := updateJobStatus s0 jobId .processing
    (jobStatusIn s1 jobId = some .processing ∧
      (prOf s1 jobId .aws).map (·.status) = some .pending ∧
      (prOf s1 jobId .deepgram).map (·.status) = some .pending) ∧
    jobStatusIn (runProviderTranscription s0 jobId p o t1) jobId = some .processing := by
  cases o <;> cases p <;>
    simp [createComparisonJob, runProviderTranscription,
      updateProviderResult, failProviderResult, updateJobStatus,
      areAllProvidersCompleted, areAllProvidersCompletedJob, prTerminal,
      ProviderResults.put, ProviderResults.get, getJob, setJob,
      jobStatusIn, prOf]

/-- C5: along every operation sequence the orchestrator performs against
the store — comparison path: create, set Processing, record the two
provider outcomes in either order; single-provider path: create, set
Processing, terminal write — the job's observed status is non-decreasing
under Pending < Processing < {Completed, Failed}; in particular no
operation moves the job out of a terminal status.  The decompositions are
tied to the orchestrator's entry points by the two trailing equations. -/
theorem C5_status_monotone
    (jobId fn fp lc : String) (pv : Provider) (dm : Option String)
    (t0 tA tD tN : Nat) (oA oD o : Outcome) (awsFirst : Bool) :
    let s0 := createComparisonJob [] jobId fn fp lc dm t0
    let s1 := updateJobStatus s0 jobId .processing
    let p1 := if awsFirst then Provider.aws else Provider.deepgram
    let o1 := if awsFirst then oA else oD
    let u1 := if awsFirst then tA else tD
    let p2 := if awsFirst then Provider.deepgram else Provider.aws
    let o2 := if awsFirst then oD else oA
    let u2 := if awsFirst then tD else tA
    let s2 := runProviderTranscription s1 jobId p1 o1 u1
    let s3 := runProviderTranscription s2 jobId p2 o2 u2
    let q0 := createJob [] jobId fn fp lc (some pv) dm t0
    let q1 := updateJobStatus q0 jobId .processing
    let q2 := match o with
              | .ok r => completeJob q1 jobId r tN
              | .thrown m => failJob q1 jobId m tN
    (∃ a b c d, jobStatusIn s0 jobId = some a ∧ jobStatusIn s1 jobId = some b ∧
      jobStatusIn s2 jobId = some c ∧ jobStatusIn s3 jobId = some d ∧
      statusRank a ≤ statusRank b ∧ statusRank b ≤ statusRank c ∧
      statusRank c ≤ statusRank d) ∧
    (∃ a b c, jobStatusIn q0 jobId = some a ∧ jobStatusIn q1 jobId = some b ∧
      jobStatusIn q2 jobId = some c ∧
      statusRank a ≤ statusRank b ∧ statusRank b ≤ statusRank c) ∧
    runCompareTranscriptionsJob s0 jobId oA oD awsFirst tA tD = s3 ∧
    runTranscribeWithProviderJob q0 jobId o tN = q2 := by
  cases oA <;> cases oD <;> cases o <;> cases awsFirst <;> cases pv <;>
    simp [createComparisonJob, createJob, runCompareTranscriptionsJob,
      runTranscribeWithProviderJob, runProviderTranscription,
      updateProviderResult, failProviderResult, updateJobStatus,
      completeJob, failJob,
      areAllProvidersCompleted, areAllProvidersCompletedJob, prTerminal,
      ProviderResults.put, ProviderResults.get, getJob, setJob,
      jobStatusIn, statusRank]

/-- C6: completedAt is set exactly when the job-level status is terminal;
the invariant holds at creation and at every state the orchestrator's store
operations produce, on both the comparison path and the single-provider
path (same decompositions as C5, tied to the entry points by the trailing
equations). -/
theorem C6_completedAt_iff_terminal
    (jobId fn fp lc : String) (pv : Provider) (dm : Option String)
    (t0 tA tD tN : Nat) (oA oD o : Outcome) (awsFirst : Bool) :
    let s0 := createComparisonJob [] jobId fn fp lc dm t0
    let s1 := updateJobStatus s0 jobId .processing
    let p1 := if awsFirst then Provider.aws else Provider.deepgram
    let o1 := if awsFirst then oA else oD
    let u1 := if awsFirst then tA else tD
    let p2 := if awsFirst then Provider.deepgram else Provider.aws
    let o2 := if awsFirst then oD else oA
    let u2 := if awsFirst then tD else tA
    let s2 := runProviderTranscription s1 jobId p1 o1 u1
    let s3 := runProviderTranscription s2 jobId p2 o2 u2
    let q0 := createJob [] jobId fn fp lc (some pv) dm t0
    let q1 := updateJobStatus q0 jobId .processing
    let q2 := match o with
              | .ok r => completeJob q1 jobId r tN
              | .thrown m => failJob q1 jobId m tN
    (getJob s0 jobId).map completedAtConsistent = some true ∧
    (getJob s1 jobId).map completedAtConsistent = some true ∧
    (getJob s2 jobId).map completedAtConsistent = some true ∧
    (getJob s3 jobId).map completedAtConsistent = some true ∧
    (getJob q0 jobId).map completedAtConsistent = some true ∧
    (getJob q1 jobId).map completedAtConsistent = some true ∧
    (getJob q2 jobId).map completedAtConsistent = some true ∧
    runCompareTranscriptionsJob s0 jobId oA oD awsFirst tA tD = s3 ∧
    runTranscribeWithProviderJob q0 jobId o tN = q2 := by
  cases oA <;> cases oD <;> cases o <;> cases awsFirst <;> cases pv <;>
    simp [createComparisonJob, createJob, runCompareTranscriptionsJob,
      runTranscribeWithProviderJob, runProviderTranscription,
      updateProviderResult, failProviderResult, updateJobStatus,
      completeJob, failJob,
      areAllProvidersCompleted, areAllProvidersCompletedJob, prTerminal,
      ProviderResults.put, ProviderResults.get, getJob, setJob,
      completedAtConsistent, JobStatus.terminal]

/-- Comparison-job store in which the aws provider has already been
recorded as completed. -/
def awsRecordedOnce : Store :=
  updateProviderResult
    (createComparisonJob [] "job1" "clip.mp3" "/tmp/clip.mp3" "en-US" none 0)
    "job1" .aws (awsSuccessResult "hello" "1.00s") 10

/-- C7 counterexample: a second recording call for a provider whose
ProviderResult is already terminal does not leave the job unchanged — a
failProviderResult after an updateProviderResult for the same provider
replaces the terminal value completed with the different terminal value
failed. -/
theorem C7_counterexample_second_write_overwrites :
    (prOf awsRecordedOnce "job1" .aws).map (·.status) = some .completed ∧
    (prOf (failProviderResult awsRecordedOnce "job1" .aws "boom" 20)
        "job1" .aws).map (·.status) = some .failed ∧
    getJob (failProviderResult awsRecordedOnce "job1" .aws "boom" 20) "job1" ≠
      getJob awsRecordedOnce "job1" := by
  decide

/-- C7 amended: recording a provider outcome is last-write-wins, not
idempotent.  Whatever ProviderResult a provider currently holds — pending
or already terminal — updateProviderResult overwrites it with a fresh
completed entry and failProviderResult with a fresh failed entry, with the
job-level status re-derived; so a repeated or conflicting recording call
replaces the stored value rather than leaving the job unchanged. -/
theorem C7_amended_last_write_wins
    (jobId fn fp lc : String) (st : JobStatus) (pv : Option Provider)
    (dm : Option String) (res : Option AdapterResponse) (err : Option String)
    (v w : ProviderResult) (t0 : Nat) (cAt : Option Nat)
    (r : AdapterResponse) (m : String) (now : Nat) :
    let j : TranscriptionJob :=
      { id := jobId, status := st, fileName := fn, filePath := fp
        languageCode := lc, provider := pv, deepgramModel := dm
        result := res, error := err
        providerResults := some { aws := some v, deepgram := some w }
        createdAt := t0, completedAt := cAt }
    let s : Store := [(jobId, j)]
    (prOf (updateProviderResult s jobId .aws r now) jobId .aws =
      some { status := .completed, result := some r, completedAt := some now } ∧
     prOf (updateProviderResult s jobId .aws r now) jobId .deepgram = some w) ∧
    (prOf (failProviderResult s jobId .aws m now) jobId .aws =
      some { status := .failed, error := some m, completedAt := some now } ∧
     prOf (failProviderResult s jobId .aws m now) jobId .deepgram = some w) ∧
    (prOf (updateProviderResult s jobId .deepgram r now) jobId .deepgram =
      some { status := .completed, result := some r, completedAt := some now } ∧
     prOf (updateProviderResult s jobId .deepgram r now) jobId .aws = some v) ∧
    (prOf (failProviderResult s jobId .deepgram m now) jobId .deepgram =
      some { status := .failed, error := some m, completedAt := some now } ∧
     prOf (failProviderResult s jobId .deepgram m now) jobId .aws = some v) := by
  obtain ⟨vs, vr, ve, vu, vc⟩ := v
  obtain ⟨ws, wr, we, wu, wc⟩ := w
  cases vs <;> cases ws <;> cases st <;>
    simp [updateProviderResult, failProviderResult,
      areAllProvidersCompleted, areAllProvidersCompletedJob, prTerminal,
      ProviderResults.put, ProviderResults.get, getJob, setJob, prOf]

/-- Bridge between the eviction condition as coded and the claim's wording:
a job meets cleanupOldJobs' test exactly when its status is terminal and
its completedAt is set and strictly older than one hour before now. -/
theorem shouldEvict_iff (j : TranscriptionJob) (now : Nat) :
    shouldEvict j now = true ↔
      (j.status.terminal = true ∧
        ∃ t, j.completedAt = some t ∧ t < now - 60 * 60 * 1000) := by
  cases h : j.completedAt <;> cases hs : j.status <;>
    simp [shouldEvict, h, hs, JobStatus.terminal, and_comm]

/-- C8: a sweep evicts exactly the entries whose status is terminal and
whose completedAt is older than the one-hour retention window; every other
entry — in particular every Pending or Processing job, of any age — survives
the sweep unchanged (it is literally the same store entry). -/
theorem C8_cleanup_evicts_exactly_old_terminal
    (s : Store) (now : Nat) (k : String) (j : TranscriptionJob) :
    (k, j) ∈ cleanupOldJobs s now ↔
      ((k, j) ∈ s ∧
        ¬(j.status.terminal = true ∧
          ∃ t, j.completedAt = some t ∧ t < now - 60 * 60 * 1000)) := by
  rw [cleanupOldJobs, List.mem_filter]
  simp [← shouldEvict_iff]

/-- ProviderResult that recording a settled provider task writes: completed
with the payload for a returned value, failed with the message for a
throw. -/
def outcomePR : Outcome → Nat → ProviderResult
  | .ok r, t => { status := .completed, result := some r, completedAt := some t }
  | .thrown m, t => { status := .failed, error := some m, completedAt := some t }

/-- C9: for a comparison job whose two provider tasks settle in either
interleaving of their atomic store updates — including at the same
timestamp, tA = tD being allowed — both ProviderResults are present in the
final store with the respective task's outcome (no lost update), and
exactly one job-level transition to a terminal status occurs: the job is
not terminal after the first recording and terminal after the second.  The
decomposition is tied to the orchestrator's entry point by the trailing
equation. -/
theorem C9_no_lost_update_single_terminal_transition
    (jobId fn fp lc : String) (dm : Option String) (t0 tA tD : Nat)
    (oA oD : Outcome) (awsFirst : Bool) :
    let s0 := createComparisonJob [] jobId fn fp lc dm t0
    let s1 := updateJobStatus s0 jobId .processing
    let p1 := if awsFirst then Provider.aws else Provider.deepgram
    let o1 := if awsFirst then oA else oD
    let u1 := if awsFirst then tA else tD
    let p2 := if awsFirst then Provider.deepgram else Provider.aws
    let o2 := if awsFirst then oD else oA
    let u2 := if awsFirst then tD else tA
    let s2 := runProviderTranscription s1 jobId p1 o1 u1
    let s3 := runProviderTranscription s2 jobId p2 o2 u2
    prOf s3 jobId .aws = some (outcomePR oA tA) ∧
    prOf s3 jobId .deepgram = some (outcomePR oD tD) ∧
    (jobStatusIn s2 jobId).map JobStatus.terminal = some false ∧
    (jobStatusIn s3 jobId).map JobStatus.terminal = some true ∧
    runCompareTranscriptionsJob s0 jobId oA oD awsFirst tA tD = s3 := by
  cases oA <;> cases oD <;> cases awsFirst <;>
    simp [createComparisonJob, runCompareTranscriptionsJob,
      runProviderTranscription, updateProviderResult, failProviderResult,
      updateJobStatus, areAllProvidersCompleted, areAllProvidersCompletedJob,
      prTerminal, ProviderResults.put, ProviderResults.get, getJob, setJob,
      jobStatusIn, prOf, outcomePR, JobStatus.terminal]

/-- C10: every mutating store operation called with a job id the store does
not hold returns the store unchanged, and the two provider-result
operations called on an existing job that has no providerResults object (a
single-provider job) also return the store unchanged; no entry is created
or altered in either case. -/
theorem C10_missing_job_operations_noop
    (s : Store) (jobId : String) (st : JobStatus) (p : Provider)
    (r : AdapterResponse) (m : String) (t : Nat) :
    (getJob s jobId = none →
      updateJobStatus s jobId st = s ∧
      completeJob s jobId r t = s ∧
      failJob s jobId m t = s ∧
      updateProviderResult s jobId p r t = s ∧
      failProviderResult s jobId p m t = s) ∧
    (∀ j, getJob s jobId = some j → j.providerResults = none →
      updateProviderResult s jobId p r t = s ∧
      failProviderResult s jobId p m t = s) := by
  constructor
  · intro h
    refine ⟨?_, ?_, ?_, ?_, ?_⟩ <;>
      simp [updateJobStatus, completeJob, failJob, updateProviderResult,
        failProviderResult, h]
  · intro j hj hpr
    constructor <;>
      simp [updateProviderResult, failProviderResult, hj, hpr]

/-- Sample single-provider job used to instantiate C10's second part. -/
def sampleSingleJob : TranscriptionJob :=
  { id := "a", status := .pending, fileName := "clip.mp3"
    filePath := "/tmp/clip.mp3", languageCode := "en-US"
    provider := some .aws, createdAt := 0 }

/-- Witness for C10: instantiation at the empty store with an unknown id,
and at a one-entry store whose job has no providerResults object. -/
theorem C10_missing_job_operations_noop_witness :
    (updateJobStatus [] "a" .processing = [] ∧
      completeJob [] "a" (awsSuccessResult "hello" "1.00s") 0 = [] ∧
      failJob [] "a" "boom" 0 = [] ∧
      updateProviderResult [] "a" .aws (awsSuccessResult "hello" "1.00s") 0 = [] ∧
      failProviderResult [] "a" .aws "boom" 0 = []) ∧
    (updateProviderResult [("a", sampleSingleJob)] "a" .aws
        (awsSuccessResult "hello" "1.00s") 0 = [("a", sampleSingleJob)] ∧
      failProviderResult [("a", sampleSingleJob)] "a" .aws "boom" 0 =
        [("a", sampleSingleJob)]) :=
  ⟨(C10_missing_job_operations_noop [] "a" .processing .aws
      (awsSuccessResult "hello" "1.00s") "boom" 0).1 rfl,
   (C10_missing_job_operations_noop [("a", sampleSingleJob)] "a" .processing .aws
      (awsSuccessResult "hello" "1.00s") "boom" 0).2 sampleSingleJob
      (by decide) rfl⟩

end Notica
